import Mathlib

/-!
Verification development for the paradedb-reranker repository: a shallow
embedding of its Python scripts (search_cli.py, ingest_data.py,
ingest_embeddings.py, generate_user_embeddings.py, utils.py) together
with theorems settling the frozen specification claims.

Numeric values (Python floats, SQL numerics) are modelled as rationals;
SQL NULL is modelled with Option; strings are Lean strings.
-/

namespace Reranker

/-- Drop trailing whitespace characters, as Python str.rstrip does. -/
def rstripChars (cs : List Char) : List Char :=
  (cs.reverse.dropWhile Char.isWhitespace).reverse

/-- Drop leading and trailing whitespace, as Python str.strip does. -/
def stripStr (s : String) : String :=
  String.mk (rstripChars (s.data.dropWhile Char.isWhitespace))

/-- Check for a match of the anchored regex pattern of a four digit year in
trailing parentheses: the string ends in an opening parenthesis, four digits
and a closing parenthesis.  When it matches, return the year value. -/
def trailingYear? (cs : List Char) : Option Nat :=
  match cs.drop (cs.length - 6) with
  | ['(', a, b, c, d, ')'] =>
      if a.isDigit && b.isDigit && c.isDigit && d.isDigit then
        some (1000 * (a.toNat - 48) + 100 * (b.toNat - 48) +
              10 * (c.toNat - 48) + (d.toNat - 48))
      else none
  | _ => none

namespace MovieDataUtils

/-- Embedding of MovieDataUtils.extract_year_from_title in utils.py: a
search of the year regex anchored at the end of the title; on a match the
title up to the match start is returned right-stripped with the year,
otherwise the title unchanged with no year. -/
def extract_year_from_title (title : String) : String × Option Nat :=
  match trailingYear? title.data with
  | some y => (String.mk (rstripChars (title.data.take (title.data.length - 6))), some y)
  | none => (title, none)

/-- Embedding of MovieDataUtils.parse_genres in utils.py. -/
def parse_genres (genres_str : String) : List String :=
  if genres_str = "(no genres listed)" then []
  else ((genres_str.splitOn "|").map stripStr).filter (fun g => g ≠ "")

end MovieDataUtils

namespace MovieLensIngester

/-- Embedding of MovieLensIngester.extract_year_from_title in
ingest_data.py, a duplicate of the utils.py helper. -/
def extract_year_from_title (title : String) : String × Option Nat :=
  match trailingYear? title.data with
  | some y => (String.mk (rstripChars (title.data.take (title.data.length - 6))), some y)
  | none => (title, none)

/-- Embedding of MovieLensIngester.parse_genres in ingest_data.py, a
duplicate of the utils.py helper. -/
def parse_genres (genres_str : String) : List String :=
  if genres_str = "(no genres listed)" then []
  else ((genres_str.splitOn "|").map stripStr).filter (fun g => g ≠ "")

end MovieLensIngester

namespace PersonalizedSearchEngine

/-- One recorded call to unified_search: the query, the user id, the
bm25_weight and the similarity_weight passed. -/
structure UnifiedCall where
  query : String
  user_id : Int
  bm25_weight : ℚ
  similarity_weight : ℚ
deriving DecidableEq

/-- Embedding of the call structure of PersonalizedSearchEngine.search in
search_cli.py: after the user validation guard, the percentage is turned
into a decimal and unified_search is invoked three times, once per ranking
strategy. -/
def searchUnifiedCalls (query : String) (user_id : Int) (userValid : Bool)
    (pWeight : ℚ) : List UnifiedCall :=
  if userValid then
    let pDecimal := pWeight / 100
    [ ⟨query, user_id, 1, 0⟩,
      ⟨query, user_id, 1 - pDecimal, pDecimal⟩,
      ⟨query, user_id, 0, 1⟩ ]
  else []

/-- Default value of the partial-weight CLI argument in search_cli.py. -/
def defaultPartialWeight : ℚ := 50

end PersonalizedSearchEngine

/-- SQL three-valued multiplication: NULL times anything is NULL. -/
def sqlMul (a b : Option ℚ) : Option ℚ :=
  match a, b with
  | some x, some y => some (x * y)
  | _, _ => none

/-- SQL three-valued addition: NULL plus anything is NULL. -/
def sqlAdd (a b : Option ℚ) : Option ℚ :=
  match a, b with
  | some x, some y => some (x + y)
  | _, _ => none

namespace PersonalizedSearchEngine

/-- A row of the first_pass_retrieval CTE of the unified_search SQL: the
BM25 candidate list produced by the full-text engine, already ordered by
score and limited. -/
structure FPRow where
  movie_id : Int
  title : String
  year : Option Int
  genres : List String
  bm25_score : ℚ
deriving DecidableEq

/-- A row of the joint_ranker CTE of the unified_search SQL. -/
structure JRRow where
  movie_id : Int
  title : String
  year : Option Int
  genres : List String
  normalized_bm25 : Option ℚ
  normalized_similarity : Option ℚ
  combined_score : Option ℚ
deriving DecidableEq

/-- Minimum of a nonempty score list; the default for the empty list is
never consulted because an empty candidate set yields no rows at all. -/
def listMin : List ℚ → ℚ
  | [] => 0
  | x :: xs => xs.foldl min x

/-- Maximum of a nonempty score list, with the same unused default. -/
def listMax : List ℚ → ℚ
  | [] => 0
  | x :: xs => xs.foldl max x

/-- Minimum BM25 score of the candidate rows (the MIN window aggregate). -/
def fpMin (fp : List FPRow) : ℚ :=
  listMin (fp.map FPRow.bm25_score)

/-- Maximum BM25 score of the candidate rows (the MAX window aggregate). -/
def fpMax (fp : List FPRow) : ℚ :=
  listMax (fp.map FPRow.bm25_score)

/-- The normalization CTE value for one row given the window aggregates:
(score - min) / NULLIF(max - min, 0), NULL when all candidate scores tie. -/
def normalizedBm25 (mn mx s : ℚ) : Option ℚ :=
  if mx - mn = 0 then none else some ((s - mn) / (mx - mn))

/-- Insert into a list sorted by the boolean order le, keeping stability. -/
def insertSorted (le : α → α → Bool) (a : α) : List α → List α
  | [] => [a]
  | b :: bs => if le a b then a :: b :: bs else b :: insertSorted le a bs

/-- Sort a list by the boolean order le. -/
def sortByBool (le : α → α → Bool) (l : List α) : List α :=
  l.foldr (insertSorted le) []

/-- Order used by the final ORDER BY combined_score DESC: a NULL score
sorts first, as Postgres places NULLs first in descending order. -/
def combinedDescLe (a b : JRRow) : Bool :=
  match a.combined_score, b.combined_score with
  | none, _ => true
  | some _, none => false
  | some x, some y => y ≤ x

/-- The raw distance u.embedding to m.content_embedding of the
personalized_ranker CTE, NULL when either embedding is NULL. -/
def rowSimRaw (dist : List ℚ → List ℚ → ℚ) (contentEmb : Int → Option (List ℚ))
    (userEmb : Option (List ℚ)) (mid : Int) : Option ℚ :=
  match userEmb, contentEmb mid with
  | some u, some m => some (dist u m)
  | _, _ => none

/-- The normalized_similarity column of the personalized_ranker CTE:
(1 - distance + 1) / 2, NULL when the distance is NULL. -/
def rowNs (dist : List ℚ → List ℚ → ℚ) (contentEmb : Int → Option (List ℚ))
    (userEmb : Option (List ℚ)) (mid : Int) : Option ℚ :=
  (rowSimRaw dist contentEmb userEmb mid).map fun d => (1 - d + 1) / 2

/-- The joint_ranker row built from one first-pass candidate. -/
def jrOfFp (dist : List ℚ → List ℚ → ℚ) (contentEmb : Int → Option (List ℚ))
    (userEmb : Option (List ℚ)) (mn mx bm25_weight similarity_weight : ℚ)
    (r : FPRow) : JRRow :=
  { movie_id := r.movie_id
    title := r.title
    year := r.year
    genres := r.genres
    normalized_bm25 := normalizedBm25 mn mx r.bm25_score
    normalized_similarity := rowNs dist contentEmb userEmb r.movie_id
    combined_score :=
      sqlAdd (sqlMul (some bm25_weight) (normalizedBm25 mn mx r.bm25_score))
             (sqlMul (some similarity_weight) (rowNs dist contentEmb userEmb r.movie_id)) }

/-- Embedding of the SQL pipeline of
PersonalizedSearchEngine.unified_search in search_cli.py.  The external
pieces stay parameters: fp is the BM25 candidate list returned by the
first_pass_retrieval CTE, dist the cosine-distance operator of the vector
extension, contentEmb the content_embedding column of the movies table
keyed by movie_id, and userEmb the embedding column of the matched user
row (the CROSS JOIN filtered on user_id); the caller has validated that
the user row exists.  normalization rescales the BM25 scores with the
window aggregates, personalized_ranker computes
(1 - dist(u, m) + 1) / 2, and joint_ranker combines both with the two
weights; the rows come back ordered by combined score descending. -/
def unified_search (dist : List ℚ → List ℚ → ℚ) (fp : List FPRow)
    (contentEmb : Int → Option (List ℚ)) (userEmb : Option (List ℚ))
    (bm25_weight similarity_weight : ℚ) : List JRRow :=
  sortByBool combinedDescLe
    (fp.map (jrOfFp dist contentEmb userEmb (fpMin fp) (fpMax fp)
      bm25_weight similarity_weight))

/-- One search result dictionary as built by unified_search in
search_cli.py after the float conversions. -/
structure SearchResult where
  movie_id : Int
  title : String
  year : Option Int
  genres : List String
  normalized_bm25_score : ℚ
  similarity_score : ℚ
  combined_score : ℚ
deriving DecidableEq

/-- Title cell as formatted in display_results: the first 40 characters,
with an ellipsis appended when the title is longer than 40 characters. -/
def displayTitle (t : String) : String :=
  t.take 40 ++ (if 40 < t.length then "..." else "")

/-- The ten data rows one strategy table receives in display_results:
for each loop index below ten, either a filled row (rank, formatted title
and, when scores are shown, the selected score) or a blank padding row,
modelled as none. -/
def dataRows (score : SearchResult → ℚ) (show_scores : Bool)
    (results : List SearchResult) : List (Option (Nat × String × Option ℚ)) :=
  (List.range 10).map fun i =>
    match results[i]? with
    | some movie =>
        some (i + 1, displayTitle movie.title,
              if show_scores then some (score movie) else none)
    | none => none

/-- Embedding of the data portion of
PersonalizedSearchEngine.display_results in search_cli.py: the three
strategy tables show the normalized BM25 score, the combined score and
the similarity score respectively.  The decorative blank header row added
before the loop is not part of the ranked data rows. -/
def display_results (bm25_results hybrid_results rerank_results : List SearchResult)
    (show_scores : Bool) :
    List (Option (Nat × String × Option ℚ)) ×
    List (Option (Nat × String × Option ℚ)) ×
    List (Option (Nat × String × Option ℚ)) :=
  (dataRows (fun m => m.normalized_bm25_score) show_scores bm25_results,
   dataRows (fun m => m.combined_score) show_scores hybrid_results,
   dataRows (fun m => m.similarity_score) show_scores rerank_results)

end PersonalizedSearchEngine

/-- Pointwise sum of two vectors. -/
def vecAdd (a b : List ℚ) : List ℚ := List.zipWith (· + ·) a b

/-- Scalar multiple of a vector. -/
def vecScale (w : ℚ) (v : List ℚ) : List ℚ := v.map (fun x => w * x)

/-- Vector divided componentwise by a scalar. -/
def vecDiv (v : List ℚ) (c : ℚ) : List ℚ := v.map (fun x => x / c)

/-- SQL SUM aggregate over vectors: NULL on no rows, else the total. -/
def sumVecs : List (List ℚ) → Option (List ℚ)
  | [] => none
  | v :: vs => some (vs.foldl vecAdd v)

namespace UserEmbeddingGenerator

/-- One row of the ratings table as the embedding generator reads it. -/
structure Rating where
  user_id : Int
  movie_id : Int
  rating : ℚ
deriving DecidableEq

/-- The CASE expression of the user_weights CTE in
generate_user_embedding: rating minus 3.5 for a liked movie, otherwise
the negated distance of the rating below 3.5. -/
def caseWeight (rating : ℚ) : ℚ :=
  if 4 ≤ rating then rating - 7/2 else -(7/2 - rating)

/-- The user_weights CTE of the UPDATE statement in
generate_user_embedding: ratings of the given user joined to movies,
keeping rows whose movie has a non-NULL content_embedding and whose
rating is at least 4.0 or below 3.0, each carrying its CASE weight and
the movie embedding. -/
def user_weights (uid : Int) (ratings : List Rating)
    (contentEmb : Int → Option (List ℚ)) : List (ℚ × List ℚ) :=
  ratings.filterMap fun r =>
    match contentEmb r.movie_id with
    | some e =>
        if r.user_id = uid ∧ ((4 : ℚ) ≤ r.rating ∨ r.rating < (3 : ℚ)) then
          some (caseWeight r.rating, e)
        else none
    | none => none

/-- The value the UPDATE in generate_user_embedding stores in
users.embedding: SUM(weight * content_embedding) / SUM(weight) over the
user_weights rows, NULL when there are no rows. -/
def generate_user_embedding (uid : Int) (ratings : List Rating)
    (contentEmb : Int → Option (List ℚ)) : Option (List ℚ) :=
  let ws := user_weights uid ratings contentEmb
  match sumVecs (ws.map fun p => vecScale p.1 p.2) with
  | none => none
  | some s => some (vecDiv s ((ws.map Prod.fst).sum))

/-- Weight function as the claim words it: (rating - 3.5) for rating at
least 4.0 and -(3.5 - rating) otherwise. -/
def claimWeight (rating : ℚ) : ℚ :=
  if 4 ≤ rating then rating - 7/2 else -(7/2 - rating)

/-- Contributing rows as the claim words them: exactly the ratings of the
user that are at least 4.0 or below 3.0 on movies whose
content_embedding is non-null, paired with the claim weight. -/
def claimContributing (uid : Int) (ratings : List Rating)
    (contentEmb : Int → Option (List ℚ)) : List (ℚ × List ℚ) :=
  ratings.filterMap fun r =>
    if r.user_id = uid ∧ ((4 : ℚ) ≤ r.rating ∨ r.rating < (3 : ℚ)) then
      (contentEmb r.movie_id).map fun e => (claimWeight r.rating, e)
    else none

/-- Embedding value as the claim words it: the weighted average
SUM(weight * content_embedding) / SUM(weight) over the contributing
rows, NULL when none contribute. -/
def claimUserEmbedding (uid : Int) (ratings : List Rating)
    (contentEmb : Int → Option (List ℚ)) : Option (List ℚ) :=
  let ws := claimContributing uid ratings contentEmb
  match sumVecs (ws.map fun p => vecScale p.1 p.2) with
  | none => none
  | some s => some (vecDiv s ((ws.map Prod.fst).sum))

end UserEmbeddingGenerator

namespace MovieLensIngester

/-- One row of the movies table. -/
structure MovieRow where
  movie_id : Int
  title : String
  year : Option Nat
  genres : List String
  imdb_id : Option String
  tmdb_id : Option Int
  content_embedding : Option (List ℚ)
  created_at : Int
deriving DecidableEq

/-- The payload columns a movies upsert carries (temp_movies row). -/
structure MoviePayload where
  movie_id : Int
  title : String
  year : Option Nat
  genres : List String
  imdb_id : Option String
  tmdb_id : Option Int
deriving DecidableEq

/-- Effect of the INSERT ... ON CONFLICT (movie_id) DO UPDATE statement
of _ingest_movies_batch for a single temp row: on a key conflict the
payload columns are overwritten and created_at is kept, otherwise a new
row is appended whose created_at takes the insertion-time default and
whose content_embedding is NULL. -/
def upsertMovie (tbl : List MovieRow) (p : MoviePayload) (now : Int) : List MovieRow :=
  if tbl.any (fun r => r.movie_id == p.movie_id) then
    tbl.map fun r =>
      if r.movie_id == p.movie_id then
        { r with title := p.title, year := p.year, genres := p.genres,
                 imdb_id := p.imdb_id, tmdb_id := p.tmdb_id }
      else r
  else
    tbl ++ [{ movie_id := p.movie_id, title := p.title, year := p.year,
              genres := p.genres, imdb_id := p.imdb_id, tmdb_id := p.tmdb_id,
              content_embedding := none, created_at := now }]

/-- The merge statement of _ingest_movies_batch applied to a whole batch. -/
def ingestMoviesMerge (tbl : List MovieRow) (batch : List MoviePayload)
    (now : Int) : List MovieRow :=
  batch.foldl (fun t p => upsertMovie t p now) tbl

/-- One row of the ratings table. -/
structure RatingRow where
  user_id : Int
  movie_id : Int
  rating : ℚ
  rating_timestamp : Int
  created_at : Int
deriving DecidableEq

/-- The payload columns a ratings upsert carries. -/
structure RatingPayload where
  user_id : Int
  movie_id : Int
  rating : ℚ
  rating_timestamp : Int
deriving DecidableEq

/-- Effect of the INSERT ... ON CONFLICT (user_id, movie_id) DO UPDATE
statement of _ingest_ratings_batch for a single value row. -/
def upsertRating (tbl : List RatingRow) (p : RatingPayload) (now : Int) : List RatingRow :=
  if tbl.any (fun r => r.user_id == p.user_id && r.movie_id == p.movie_id) then
    tbl.map fun r =>
      if r.user_id == p.user_id && r.movie_id == p.movie_id then
        { r with rating := p.rating, rating_timestamp := p.rating_timestamp }
      else r
  else
    tbl ++ [{ user_id := p.user_id, movie_id := p.movie_id, rating := p.rating,
              rating_timestamp := p.rating_timestamp, created_at := now }]

/-- The upsert statement of _ingest_ratings_batch applied to a batch. -/
def ingestRatingsMerge (tbl : List RatingRow) (batch : List RatingPayload)
    (now : Int) : List RatingRow :=
  batch.foldl (fun t p => upsertRating t p now) tbl

/-- Lookup of the movies row with the given key. -/
def findMovie (tbl : List MovieRow) (id : Int) : Option MovieRow :=
  tbl.find? (fun r => r.movie_id == id)

/-- Lookup of the ratings row with the given key pair. -/
def findRating (tbl : List RatingRow) (u m : Int) : Option RatingRow :=
  tbl.find? (fun r => r.user_id == u && r.movie_id == m)

end MovieLensIngester

/-- A transactional database state: the durable committed state and the
working state the open transaction sees (psycopg2 with autocommit off). -/
structure Tx (α : Type) where
  committed : α
  working : α
deriving DecidableEq

/-- Commit makes the working state durable. -/
def txCommit (s : Tx α) : Tx α := { s with committed := s.working }

/-- Rollback discards the uncommitted work. -/
def txRollback (s : Tx α) : Tx α := { s with working := s.committed }

/-- Shape shared by every batch handler of the repository
(_ingest_movies_batch and friends in ingest_data.py, the per-batch body
of EmbeddingIngester.ingest_embeddings): the batch SQL updates the
working state and is committed, and when it raises partway through the
handler rolls the transaction back before the error escapes, applyPart
being whatever portion of the work had reached the working state. -/
def runBatchTx (applyFull applyPart : α → α) (s : Tx α) (fails : Bool) :
    Tx α × Option String :=
  if fails then
    (txRollback { s with working := applyPart s.working }, some "batch failed")
  else
    (txCommit { s with working := applyFull s.working }, none)

namespace MovieLensIngester

/-- Transactional run of _ingest_movies_batch: failAt gives the number of
batch rows whose effects had reached the transaction when the SQL raised,
none meaning the batch succeeded. -/
def ingest_movies_batch (s : Tx (List MovieRow)) (batch : List MoviePayload)
    (now : Int) (failAt : Option Nat) : Tx (List MovieRow) × Option String :=
  runBatchTx (fun t => ingestMoviesMerge t batch now)
    (fun t => ingestMoviesMerge t (batch.take (failAt.getD 0)) now) s failAt.isSome

/-- Transactional run of _ingest_ratings_batch. -/
def ingest_ratings_batch (s : Tx (List RatingRow)) (batch : List RatingPayload)
    (now : Int) (failAt : Option Nat) : Tx (List RatingRow) × Option String :=
  runBatchTx (fun t => ingestRatingsMerge t batch now)
    (fun t => ingestRatingsMerge t (batch.take (failAt.getD 0)) now) s failAt.isSome

end MovieLensIngester

namespace EmbeddingIngester

open MovieLensIngester

/-- Effect of the temp-table UPDATE of ingest_embeddings on the movies
table: every movie matched by a batch row gets that content_embedding. -/
def applyEmbeddingsBatch (tbl : List MovieRow) (batch : List (Int × List ℚ)) :
    List MovieRow :=
  tbl.map fun m =>
    match batch.find? (fun p => p.1 == m.movie_id) with
    | some p => { m with content_embedding := some p.2 }
    | none => m

/-- Transactional run of one batch of EmbeddingIngester.ingest_embeddings. -/
def ingest_embeddings_batch (s : Tx (List MovieRow)) (batch : List (Int × List ℚ))
    (failAt : Option Nat) : Tx (List MovieRow) × Option String :=
  runBatchTx (fun t => applyEmbeddingsBatch t batch)
    (fun t => applyEmbeddingsBatch t (batch.take (failAt.getD 0))) s failAt.isSome

/-- One record loaded from the embeddings CSV. -/
structure EmbeddingRecord where
  movie_id : Int
  content_embedding : List ℚ
deriving DecidableEq

/-- Chunking with explicit fuel so the definition stays structural; with
fuel at least the list length and a positive chunk size it produces the
slices embeddings[i : i + batch_size] of the ingestion loop. -/
def chunksOfAux (fuel bs : Nat) (l : List α) : List (List α) :=
  match fuel with
  | 0 => []
  | Nat.succ f => if l.isEmpty then [] else l.take bs :: chunksOfAux f bs (l.drop bs)

/-- The batch slices range(0, len(embeddings), batch_size) walks over. -/
def batches (bs : Nat) (l : List α) : List (List α) :=
  chunksOfAux l.length bs l

/-- The counting loop of ingest_embeddings: each batch either commits and
adds its length to total_processed, or raises, is rolled back and adds
its length to total_failed, failsOn telling which batch indices raise. -/
def runBatchesCount (failsOn : Nat → Bool) : Nat → List (List α) → Nat × Nat
  | _, [] => (0, 0)
  | i, c :: cs =>
      let rest := runBatchesCount failsOn (i + 1) cs
      if failsOn i then (rest.1, rest.2 + c.length) else (rest.1 + c.length, rest.2)

/-- Embedding of EmbeddingIngester.ingest_embeddings summary behaviour:
after the batch loop the summary divides total_processed by the number of
embeddings, so an empty embeddings list raises ZeroDivisionError there;
otherwise the processed count, failed count and success rate come back. -/
def ingest_embeddings (embs : List EmbeddingRecord) (batch_size : Nat)
    (failsOn : Nat → Bool) : Except String (Nat × Nat × ℚ) :=
  let counts := runBatchesCount failsOn 0 (batches batch_size embs)
  if embs.length = 0 then Except.error "ZeroDivisionError"
  else Except.ok (counts.1, counts.2, ((counts.1 : ℚ) / (embs.length : ℚ)) * 100)

end EmbeddingIngester

/-- Outcome of the work a script attempts inside its outermost handler:
normal completion, a keyboard interrupt, or an exception that no inner
handler resolved. -/
inductive Outcome
  | ok
  | interrupted
  | exn (msg : String)
deriving DecidableEq

/-- The five scripts of the repository. -/
inductive Script
  | searchCli
  | ingestData
  | ingestEmbeddings
  | generateUserEmbeddings
  | generateEmbedding
deriving DecidableEq

/-- Process exit code and whether an error message reaches the terminal,
per script and outcome.  search_cli.py, ingest_embeddings.py,
generate_user_embeddings.py and generate_embedding.py wrap their work in
a handler that prints the error and calls sys.exit(1); ingest_data.py has
no outermost handler, so an escaping exception is printed as a traceback
by the interpreter, which terminates the process with status 1. -/
def scriptExit : Script → Outcome → Nat × Bool
  | _, Outcome.ok => (0, false)
  | Script.searchCli, Outcome.interrupted => (1, true)
  | Script.searchCli, Outcome.exn _ => (1, true)
  | Script.ingestData, Outcome.interrupted => (1, true)
  | Script.ingestData, Outcome.exn _ => (1, true)
  | Script.ingestEmbeddings, Outcome.interrupted => (1, true)
  | Script.ingestEmbeddings, Outcome.exn _ => (1, true)
  | Script.generateUserEmbeddings, Outcome.interrupted => (1, true)
  | Script.generateUserEmbeddings, Outcome.exn _ => (1, true)
  | Script.generateEmbedding, Outcome.interrupted => (1, true)
  | Script.generateEmbedding, Outcome.exn _ => (1, true)

/-- C1: for every query string, user id and partial weight p (default
50.0), once the user validation guard passes, PersonalizedSearchEngine
search compares exactly three ranking strategies by calling
unified_search three times with weights (1.0, 0.0) for full-text only,
(1.0 - p/100, p/100) for the weighted hybrid and (0.0, 1.0) for
vector-similarity only. -/
theorem C1_search_three_strategies (query : String) (user_id : Int)
    (userValid : Bool) (p : ℚ) (hvalid : userValid = true) :
    PersonalizedSearchEngine.searchUnifiedCalls query user_id userValid p =
      [ ⟨query, user_id, 1, 0⟩,
        ⟨query, user_id, 1 - p / 100, p / 100⟩,
        ⟨query, user_id, 0, 1⟩ ] ∧
    PersonalizedSearchEngine.defaultPartialWeight = 50 := by
  subst hvalid
  exact ⟨rfl, rfl⟩

/-- Witness for C1 at the query lord, user 10001 and the default partial
weight of 50. -/
theorem C1_search_three_strategies_witness :
    PersonalizedSearchEngine.searchUnifiedCalls "lord" 10001 true 50 =
      [ ⟨"lord", 10001, 1, 0⟩,
        ⟨"lord", 10001, 1 - 50 / 100, 50 / 100⟩,
        ⟨"lord", 10001, 0, 1⟩ ] ∧
    PersonalizedSearchEngine.defaultPartialWeight = 50 :=
  C1_search_three_strategies "lord" 10001 true 50 rfl

/-- C8: the duplicated parsing helpers of ingest_data.py compute the same
results as their utils.py counterparts on every input string; parse_genres
maps the no-genres sentinel to the empty list and otherwise splits on the
pipe character, strips, and drops empty entries. -/
theorem C8_duplicated_helpers_agree (s : String) :
    MovieLensIngester.extract_year_from_title s =
      MovieDataUtils.extract_year_from_title s ∧
    MovieLensIngester.parse_genres s = MovieDataUtils.parse_genres s ∧
    MovieDataUtils.parse_genres "(no genres listed)" = [] ∧
    (s ≠ "(no genres listed)" →
      MovieDataUtils.parse_genres s =
        ((s.splitOn "|").map stripStr).filter (fun g => g ≠ "")) := by
  refine ⟨rfl, rfl, rfl, fun h => ?_⟩
  simp [MovieDataUtils.parse_genres, h]

/-- Witness for C8 on a concrete genre string. -/
theorem C8_duplicated_helpers_agree_witness :
    MovieDataUtils.parse_genres "Action|Comedy" =
      ((("Action|Comedy").splitOn "|").map stripStr).filter (fun g => g ≠ "") :=
  (C8_duplicated_helpers_agree "Action|Comedy").2.2.2 (by decide)

/-- C6: for every script, an outcome the script could not resolve
internally (an escaping exception or a keyboard interrupt) is reported on
the terminal and terminates the process with a non-zero exit status,
while normal completion exits with status zero. -/
theorem C6_nonzero_exit_on_failure (sc : Script) (o : Outcome)
    (h : o ≠ Outcome.ok) :
    (scriptExit sc o).1 ≠ 0 ∧ (scriptExit sc o).2 = true ∧
    (scriptExit sc Outcome.ok).1 = 0 := by
  cases sc <;> cases o <;> simp [scriptExit] at h ⊢

/-- Witness for C6: search_cli.py with an escaping exception. -/
theorem C6_nonzero_exit_on_failure_witness :
    (scriptExit Script.searchCli (Outcome.exn "boom")).1 ≠ 0 ∧
    (scriptExit Script.searchCli (Outcome.exn "boom")).2 = true ∧
    (scriptExit Script.searchCli Outcome.ok).1 = 0 :=
  C6_nonzero_exit_on_failure Script.searchCli (Outcome.exn "boom") (by decide)

/-- C5: a batch whose SQL raises is rolled back before the error is
propagated or recorded, so the committed database state is unchanged and
the working state is back at the committed one; stated for the generic
transactional batch shape and instantiated at the movie, rating and
embedding batch handlers. -/
theorem C5_failed_batch_rolls_back {α : Type}
    (applyFull applyPart : α → α) (s : Tx α)
    (ms : Tx (List MovieLensIngester.MovieRow))
    (mb : List MovieLensIngester.MoviePayload) (now : Int)
    (rs : Tx (List MovieLensIngester.RatingRow))
    (rb : List MovieLensIngester.RatingPayload)
    (es : Tx (List MovieLensIngester.MovieRow))
    (eb : List (Int × List ℚ)) (k : Nat) :
    ((runBatchTx applyFull applyPart s true).1.committed = s.committed ∧
     (runBatchTx applyFull applyPart s true).1.working = s.committed ∧
     (runBatchTx applyFull applyPart s true).2.isSome = true) ∧
    ((MovieLensIngester.ingest_movies_batch ms mb now (some k)).1.committed = ms.committed ∧
     (MovieLensIngester.ingest_movies_batch ms mb now (some k)).1.working = ms.committed) ∧
    ((MovieLensIngester.ingest_ratings_batch rs rb now (some k)).1.committed = rs.committed ∧
     (MovieLensIngester.ingest_ratings_batch rs rb now (some k)).1.working = rs.committed) ∧
    ((EmbeddingIngester.ingest_embeddings_batch es eb (some k)).1.committed = es.committed ∧
     (EmbeddingIngester.ingest_embeddings_batch es eb (some k)).1.working = es.committed) := by
  refine ⟨⟨rfl, rfl, rfl⟩, ⟨rfl, rfl⟩, ⟨rfl, rfl⟩, ⟨rfl, rfl⟩⟩

/-- Finding by a key after a keyed map update locates the image of the
previously found row, provided the update preserves the key. -/
theorem find?_map_keyed {α : Type} (p : α → Bool) (f : α → α)
    (hf : ∀ a, p a = true → p (f a) = true) :
    ∀ l : List α,
      (l.map fun a => if p a then f a else a).find? p = (l.find? p).map f := by
  intro l
  induction l with
  | nil => rfl
  | cons a l ih =>
    cases h : p a with
    | true =>
      rw [List.map_cons, if_pos h, List.find?_cons_of_pos _ (hf a h),
        List.find?_cons_of_pos _ h]
      rfl
    | false =>
      rw [List.map_cons, if_neg (by simp [h]),
        List.find?_cons_of_neg _ (by simp [h]),
        List.find?_cons_of_neg _ (by simp [h]), ih]

/-- Finding in an append skips a block in which nothing matches. -/
theorem find?_append_of_none {α : Type} (p : α → Bool) (l l' : List α)
    (h : l.find? p = none) : (l ++ l').find? p = l'.find? p := by
  induction l with
  | nil => rfl
  | cons a l ih =>
    rw [List.find?_cons] at h
    cases hp : p a with
    | true => rw [hp] at h; exact absurd h (by simp)
    | false =>
      rw [hp] at h
      rw [List.cons_append, List.find?_cons_of_neg _ (by simp [hp]), ih h]

/-- C4: the movie and rating ingestion operations are upserts keyed on
movie_id and on the pair (user_id, movie_id): an absent key inserts a new
row carrying the payload and the insertion-time created_at, and a present
key replaces exactly the payload fields while the existing created_at is
left unchanged. -/
theorem C4_ingestion_upserts (tbl : List MovieLensIngester.MovieRow)
    (p : MovieLensIngester.MoviePayload) (now : Int)
    (rtbl : List MovieLensIngester.RatingRow)
    (q : MovieLensIngester.RatingPayload) :
    (MovieLensIngester.findMovie tbl p.movie_id = none →
      MovieLensIngester.findMovie (MovieLensIngester.upsertMovie tbl p now) p.movie_id =
        some { movie_id := p.movie_id, title := p.title, year := p.year,
               genres := p.genres, imdb_id := p.imdb_id, tmdb_id := p.tmdb_id,
               content_embedding := none, created_at := now }) ∧
    (∀ r, MovieLensIngester.findMovie tbl p.movie_id = some r →
      MovieLensIngester.findMovie (MovieLensIngester.upsertMovie tbl p now) p.movie_id =
        some { r with title := p.title, year := p.year, genres := p.genres,
                      imdb_id := p.imdb_id, tmdb_id := p.tmdb_id }) ∧
    (MovieLensIngester.findRating rtbl q.user_id q.movie_id = none →
      MovieLensIngester.findRating (MovieLensIngester.upsertRating rtbl q now) q.user_id q.movie_id =
        some { user_id := q.user_id, movie_id := q.movie_id, rating := q.rating,
               rating_timestamp := q.rating_timestamp, created_at := now }) ∧
    (∀ r, MovieLensIngester.findRating rtbl q.user_id q.movie_id = some r →
      MovieLensIngester.findRating (MovieLensIngester.upsertRating rtbl q now) q.user_id q.movie_id =
        some { r with rating := q.rating, rating_timestamp := q.rating_timestamp }) := by
  refine ⟨fun h => ?_, fun r h => ?_, fun h => ?_, fun r h => ?_⟩
  · unfold MovieLensIngester.findMovie at h ⊢
    unfold MovieLensIngester.upsertMovie
    have hany : tbl.any (fun r => r.movie_id == p.movie_id) = false := by
      rw [List.any_eq_false]
      intro x hx
      exact List.find?_eq_none.mp h x hx
    rw [if_neg (by simp [hany]), find?_append_of_none _ _ _ h,
      List.find?_cons_of_pos _ (by simp)]
  · unfold MovieLensIngester.findMovie at h ⊢
    unfold MovieLensIngester.upsertMovie
    have hmem := List.mem_of_find?_eq_some h
    have hpr := List.find?_some h
    have hany : tbl.any (fun r => r.movie_id == p.movie_id) = true :=
      List.any_eq_true.mpr ⟨r, hmem, hpr⟩
    rw [if_pos hany,
      find?_map_keyed _ _ (fun a ha => by simpa using ha) tbl, h]
    rfl
  · unfold MovieLensIngester.findRating at h ⊢
    unfold MovieLensIngester.upsertRating
    have hany : rtbl.any (fun r => r.user_id == q.user_id && r.movie_id == q.movie_id) = false := by
      rw [List.any_eq_false]
      intro x hx
      exact List.find?_eq_none.mp h x hx
    rw [if_neg (by simp [hany]), find?_append_of_none _ _ _ h,
      List.find?_cons_of_pos _ (by simp)]
  · unfold MovieLensIngester.findRating at h ⊢
    unfold MovieLensIngester.upsertRating
    have hmem := List.mem_of_find?_eq_some h
    have hpr := List.find?_some h
    have hany : rtbl.any (fun r => r.user_id == q.user_id && r.movie_id == q.movie_id) = true :=
      List.any_eq_true.mpr ⟨r, hmem, hpr⟩
    rw [if_pos hany,
      find?_map_keyed _ _ (fun a ha => by simpa using ha) rtbl, h]
    rfl

/-- Witness for C4: an insert into an empty movies table and an update of
a one-row ratings table. -/
theorem C4_ingestion_upserts_witness :
    (MovieLensIngester.findMovie
        (MovieLensIngester.upsertMovie []
          { movie_id := 1, title := "Toy Story", year := some 1995,
            genres := ["Animation"], imdb_id := none, tmdb_id := none } 7) 1 =
      some { movie_id := 1, title := "Toy Story", year := some 1995,
             genres := ["Animation"], imdb_id := none, tmdb_id := none,
             content_embedding := none, created_at := 7 }) ∧
    (MovieLensIngester.findRating
        (MovieLensIngester.upsertRating
          [{ user_id := 5, movie_id := 1, rating := 3, rating_timestamp := 11,
             created_at := 2 }]
          { user_id := 5, movie_id := 1, rating := 9/2, rating_timestamp := 30 } 7) 5 1 =
      some { user_id := 5, movie_id := 1, rating := 9/2, rating_timestamp := 30,
             created_at := 2 }) := by
  constructor
  · exact (C4_ingestion_upserts [] _ 7 [] ⟨5, 1, 3, 11⟩).1 (by decide)
  · exact (C4_ingestion_upserts []
      { movie_id := 1, title := "Toy Story", year := some 1995,
        genres := ["Animation"], imdb_id := none, tmdb_id := none } 7 _ _).2.2.2
      { user_id := 5, movie_id := 1, rating := 3, rating_timestamp := 11,
        created_at := 2 } (by decide)

/-- The data-row loop of display_results always produces ten rows. -/
theorem dataRows_length (sc : PersonalizedSearchEngine.SearchResult → ℚ)
    (ss : Bool) (l : List PersonalizedSearchEngine.SearchResult) :
    (PersonalizedSearchEngine.dataRows sc ss l).length = 10 := by
  simp [PersonalizedSearchEngine.dataRows]

/-- The data rows depend only on the first ten results. -/
theorem dataRows_take_ten (sc : PersonalizedSearchEngine.SearchResult → ℚ)
    (ss : Bool) (l : List PersonalizedSearchEngine.SearchResult) :
    PersonalizedSearchEngine.dataRows sc ss l =
      PersonalizedSearchEngine.dataRows sc ss (l.take 10) := by
  unfold PersonalizedSearchEngine.dataRows
  apply List.map_congr_left
  intro i hi
  have h : i < 10 := List.mem_range.mp hi
  rw [List.getElem?_take]
  simp [h]

/-- Loop indices at or past the result count give blank padding rows. -/
theorem dataRows_blank (sc : PersonalizedSearchEngine.SearchResult → ℚ)
    (ss : Bool) (l : List PersonalizedSearchEngine.SearchResult) (i : Nat)
    (h1 : i < 10) (h2 : l.length ≤ i) :
    (PersonalizedSearchEngine.dataRows sc ss l)[i]? = some none := by
  unfold PersonalizedSearchEngine.dataRows
  rw [List.getElem?_map, List.getElem?_range h1]
  simp [List.getElem?_eq_none h2]

/-- C9: display_results renders exactly ten ranked data rows per strategy
table whatever the list lengths; rows past the list length are blank
padding, entries past the tenth are never shown, and a displayed title
longer than 40 characters is truncated to its first 40 characters with an
ellipsis appended. -/
theorem C9_display_ten_rows
    (bm hyb rr : List PersonalizedSearchEngine.SearchResult) (ss : Bool) :
    ((PersonalizedSearchEngine.display_results bm hyb rr ss).1.length = 10 ∧
     (PersonalizedSearchEngine.display_results bm hyb rr ss).2.1.length = 10 ∧
     (PersonalizedSearchEngine.display_results bm hyb rr ss).2.2.length = 10) ∧
    PersonalizedSearchEngine.display_results bm hyb rr ss =
      PersonalizedSearchEngine.display_results (bm.take 10) (hyb.take 10) (rr.take 10) ss ∧
    (∀ i, i < 10 → bm.length ≤ i →
      (PersonalizedSearchEngine.display_results bm hyb rr ss).1[i]? = some none) ∧
    (∀ i, i < 10 → hyb.length ≤ i →
      (PersonalizedSearchEngine.display_results bm hyb rr ss).2.1[i]? = some none) ∧
    (∀ i, i < 10 → rr.length ≤ i →
      (PersonalizedSearchEngine.display_results bm hyb rr ss).2.2[i]? = some none) ∧
    (∀ t : String, 40 < t.length →
      PersonalizedSearchEngine.displayTitle t = t.take 40 ++ "...") := by
  refine ⟨⟨dataRows_length _ _ _, dataRows_length _ _ _, dataRows_length _ _ _⟩,
    ?_, fun i h1 h2 => dataRows_blank _ _ _ i h1 h2,
    fun i h1 h2 => dataRows_blank _ _ _ i h1 h2,
    fun i h1 h2 => dataRows_blank _ _ _ i h1 h2,
    fun t h => ?_⟩
  · unfold PersonalizedSearchEngine.display_results
    rw [← dataRows_take_ten, ← dataRows_take_ten, ← dataRows_take_ten]
  · simp [PersonalizedSearchEngine.displayTitle, h]

/-- Witness for C9: blank padding on empty result lists and truncation of
a 41-character title. -/
theorem C9_display_ten_rows_witness :
    (PersonalizedSearchEngine.display_results [] [] [] false).1[3]? = some none ∧
    PersonalizedSearchEngine.displayTitle
        "aaaaaaaaaaaaaaaaaaaaaaaaaaaaaaaaaaaaaaaaa" =
      ("aaaaaaaaaaaaaaaaaaaaaaaaaaaaaaaaaaaaaaaaa").take 40 ++ "..." := by
  constructor
  · exact (C9_display_ten_rows [] [] [] false).2.2.1 3 (by decide) (by decide)
  · exact (C9_display_ten_rows [] [] [] false).2.2.2.2.2
      "aaaaaaaaaaaaaaaaaaaaaaaaaaaaaaaaaaaaaaaaa" (by decide)

/-- The user_weights CTE rows coincide with the contributing rows as the
claim describes them. -/
theorem user_weights_eq_claimContributing (uid : Int)
    (ratings : List UserEmbeddingGenerator.Rating)
    (cemb : Int → Option (List ℚ)) :
    UserEmbeddingGenerator.user_weights uid ratings cemb =
      UserEmbeddingGenerator.claimContributing uid ratings cemb := by
  unfold UserEmbeddingGenerator.user_weights UserEmbeddingGenerator.claimContributing
  apply List.filterMap_congr
  intro r _
  cases hc : cemb r.movie_id with
  | none => simp [hc]
  | some e =>
    by_cases hcond : r.user_id = uid ∧ ((4 : ℚ) ≤ r.rating ∨ r.rating < (3 : ℚ))
    · simp [hc, hcond]
      rfl
    · simp [hc, hcond]

/-- C3: generate_user_embedding stores the weighted average
SUM(weight * content_embedding) / SUM(weight) over exactly the ratings of
the user that are at least 4.0 or below 3.0 on movies with a non-null
content_embedding, weighted by (rating - 3.5) for likes and
-(3.5 - rating) for dislikes; a rating in the band [3.0, 4.0) contributes
nothing and so does a rating on a movie without an embedding. -/
theorem C3_user_embedding_weighted_average (uid : Int)
    (ratings : List UserEmbeddingGenerator.Rating)
    (cemb : Int → Option (List ℚ)) :
    UserEmbeddingGenerator.generate_user_embedding uid ratings cemb =
      UserEmbeddingGenerator.claimUserEmbedding uid ratings cemb ∧
    (∀ r : UserEmbeddingGenerator.Rating, (3 : ℚ) ≤ r.rating → r.rating < 4 →
      UserEmbeddingGenerator.generate_user_embedding uid (r :: ratings) cemb =
        UserEmbeddingGenerator.generate_user_embedding uid ratings cemb) ∧
    (∀ r : UserEmbeddingGenerator.Rating, cemb r.movie_id = none →
      UserEmbeddingGenerator.generate_user_embedding uid (r :: ratings) cemb =
        UserEmbeddingGenerator.generate_user_embedding uid ratings cemb) := by
  refine ⟨?_, fun r hge3 hlt4 => ?_, fun r hnone => ?_⟩
  · unfold UserEmbeddingGenerator.generate_user_embedding
      UserEmbeddingGenerator.claimUserEmbedding
    rw [user_weights_eq_claimContributing]
  · have hw : UserEmbeddingGenerator.user_weights uid (r :: ratings) cemb =
        UserEmbeddingGenerator.user_weights uid ratings cemb := by
      unfold UserEmbeddingGenerator.user_weights
      rw [List.filterMap_cons]
      cases hc : cemb r.movie_id with
      | none => rfl
      | some e =>
        have hnot : ¬(r.user_id = uid ∧ ((4 : ℚ) ≤ r.rating ∨ r.rating < (3 : ℚ))) := by
          rintro ⟨-, h4 | h3⟩
          · exact absurd h4 (not_le.mpr hlt4)
          · exact absurd h3 (not_lt.mpr hge3)
        simp [hnot]
    unfold UserEmbeddingGenerator.generate_user_embedding
    rw [hw]
  · have hw : UserEmbeddingGenerator.user_weights uid (r :: ratings) cemb =
        UserEmbeddingGenerator.user_weights uid ratings cemb := by
      unfold UserEmbeddingGenerator.user_weights
      rw [List.filterMap_cons]
      simp [hnone]
    unfold UserEmbeddingGenerator.generate_user_embedding
    rw [hw]

/-- Witness for C3: a 3.5-star rating contributes nothing to the stored
embedding. -/
theorem C3_user_embedding_weighted_average_witness :
    UserEmbeddingGenerator.generate_user_embedding 1
        [{ user_id := 1, movie_id := 2, rating := 7/2 }] (fun _ => some [1]) =
      UserEmbeddingGenerator.generate_user_embedding 1 [] (fun _ => some [1]) :=
  (C3_user_embedding_weighted_average 1 [] (fun _ => some [1])).2.1
    { user_id := 1, movie_id := 2, rating := 7/2 } (by norm_num) (by norm_num)

/-- With enough fuel and a positive chunk size, the chunk lengths add up
to the length of the chunked list. -/
theorem chunksOfAux_length_sum {α : Type} (bs : Nat) (hbs : 0 < bs) :
    ∀ (fuel : Nat) (l : List α), l.length ≤ fuel →
      ((EmbeddingIngester.chunksOfAux fuel bs l).map List.length).sum = l.length := by
  intro fuel
  induction fuel with
  | zero =>
    intro l h
    have : l = [] := List.eq_nil_of_length_eq_zero (Nat.le_zero.mp h)
    subst this
    rfl
  | succ f ih =>
    intro l h
    by_cases hl : l.isEmpty
    · have : l = [] := List.isEmpty_iff.mp hl
      subst this
      rfl
    · have hne : l ≠ [] := fun he => hl (by simp [he])
      have hlen : 0 < l.length := List.length_pos.mpr hne
      unfold EmbeddingIngester.chunksOfAux
      rw [if_neg (by simpa using hl)]
      rw [List.map_cons, List.sum_cons,
        ih (l.drop bs) (by rw [List.length_drop]; omega)]
      rw [List.length_take, List.length_drop]
      omega

/-- The processed and failed counters of the ingestion loop add up to the
total number of records across the batches. -/
theorem runBatchesCount_sum {α : Type} (f : Nat → Bool) :
    ∀ (cs : List (List α)) (i : Nat),
      (EmbeddingIngester.runBatchesCount f i cs).1 +
        (EmbeddingIngester.runBatchesCount f i cs).2 = (cs.map List.length).sum := by
  intro cs
  induction cs with
  | nil => intro i; rfl
  | cons c cs ih =>
    intro i
    unfold EmbeddingIngester.runBatchesCount
    have := ih (i + 1)
    by_cases hf : f i = true
    · simp only [hf, if_true, List.map_cons, List.sum_cons]
      omega
    · simp only [Bool.not_eq_true] at hf
      simp only [hf, Bool.false_eq_true, if_false, List.map_cons, List.sum_cons]
      omega

/-- C10: ingest_embeddings on the empty list raises ZeroDivisionError at
the success-rate computation, and on every non-empty list with a positive
batch size it completes with processed and failed counts summing to the
number of embeddings. -/
theorem C10_ingest_embeddings_counts
    (embs : List EmbeddingIngester.EmbeddingRecord) (bs : Nat)
    (failsOn : Nat → Bool) :
    (EmbeddingIngester.ingest_embeddings [] bs failsOn =
      Except.error "ZeroDivisionError") ∧
    (embs ≠ [] → 0 < bs →
      ∃ p q rate,
        EmbeddingIngester.ingest_embeddings embs bs failsOn = Except.ok (p, q, rate) ∧
        p + q = embs.length) := by
  constructor
  · rfl
  · intro hne hbs
    have hlen : embs.length ≠ 0 := fun h => hne (List.eq_nil_of_length_eq_zero h)
    unfold EmbeddingIngester.ingest_embeddings
    rw [if_neg hlen]
    refine ⟨_, _, _, rfl, ?_⟩
    rw [runBatchesCount_sum]
    unfold EmbeddingIngester.batches
    exact chunksOfAux_length_sum bs hbs embs.length embs (le_refl _)

/-- Witness for C10: a single embedding with no failing batch. -/
theorem C10_ingest_embeddings_counts_witness :
    ∃ p q rate,
      EmbeddingIngester.ingest_embeddings
          [{ movie_id := 1, content_embedding := [1, 0] }] 1000 (fun _ => false) =
        Except.ok (p, q, rate) ∧
      p + q = 1 :=
  (C10_ingest_embeddings_counts
      [{ movie_id := 1, content_embedding := [1, 0] }] 1000 (fun _ => false)).2
    (by decide) (by decide)

/-- Membership in an insertion is membership in the inserted element or
the original list. -/
theorem mem_insertSorted {α : Type} (le : α → α → Bool) (a x : α) :
    ∀ l : List α, x ∈ PersonalizedSearchEngine.insertSorted le a l ↔ x = a ∨ x ∈ l := by
  intro l
  induction l with
  | nil => simp [PersonalizedSearchEngine.insertSorted]
  | cons b bs ih =>
    unfold PersonalizedSearchEngine.insertSorted
    cases h : le a b with
    | true => simp
    | false =>
      simp only [Bool.false_eq_true, if_false, List.mem_cons, ih]
      tauto

/-- Sorting with the boolean order keeps exactly the original members. -/
theorem mem_sortByBool {α : Type} (le : α → α → Bool) (x : α) :
    ∀ l : List α, x ∈ PersonalizedSearchEngine.sortByBool le l ↔ x ∈ l := by
  intro l
  induction l with
  | nil => simp [PersonalizedSearchEngine.sortByBool]
  | cons a l ih =>
    show x ∈ PersonalizedSearchEngine.insertSorted le a
        (PersonalizedSearchEngine.sortByBool le l) ↔ _
    rw [mem_insertSorted, ih]
    simp

/-- C2: every row unified_search returns carries a combined score equal
to bm25_weight times the normalized BM25 score plus similarity_weight
times the normalized similarity under SQL NULL arithmetic; when both
normalized scores are non-null the combination is exact, and the weight
pairs (1, 0) and (0, 1) reduce it to the normalized BM25 score alone and
the normalized similarity score alone. -/
theorem C2_combined_score_linear
    (dist : List ℚ → List ℚ → ℚ) (fp : List PersonalizedSearchEngine.FPRow)
    (cemb : Int → Option (List ℚ)) (uemb : Option (List ℚ))
    (w1 w2 : ℚ) (r : PersonalizedSearchEngine.JRRow)
    (hr : r ∈ PersonalizedSearchEngine.unified_search dist fp cemb uemb w1 w2) :
    r.combined_score = sqlAdd (sqlMul (some w1) r.normalized_bm25)
        (sqlMul (some w2) r.normalized_similarity) ∧
    (∀ b s, r.normalized_bm25 = some b → r.normalized_similarity = some s →
      r.combined_score = some (w1 * b + w2 * s) ∧
      (w1 = 1 → w2 = 0 → r.combined_score = some b) ∧
      (w1 = 0 → w2 = 1 → r.combined_score = some s)) := by
  unfold PersonalizedSearchEngine.unified_search at hr
  rw [mem_sortByBool] at hr
  obtain ⟨a, ha, rfl⟩ := List.mem_map.mp hr
  refine ⟨rfl, fun b s hb hs => ?_⟩
  dsimp only [PersonalizedSearchEngine.jrOfFp] at hb hs ⊢
  rw [hb, hs]
  refine ⟨rfl, fun h1 h2 => ?_, fun h1 h2 => ?_⟩
  · subst h1; subst h2
    show some (1 * b + 0 * s) = some b
    simp
  · subst h1; subst h2
    show some (0 * b + 1 * s) = some s
    simp

/-- Witness for C2 on a two-candidate first pass with weights (1, 0). -/
theorem C2_combined_score_linear_witness :
    ({ movie_id := 1, title := "a", year := none, genres := [],
       normalized_bm25 := some 1, normalized_similarity := some 1,
       combined_score := some 1 } :
        PersonalizedSearchEngine.JRRow).combined_score =
      some ((1 : ℚ) * 1 + 0 * 1) :=
  ((C2_combined_score_linear (fun _ _ => 0)
      [{ movie_id := 1, title := "a", year := none, genres := [], bm25_score := 2 },
       { movie_id := 2, title := "b", year := none, genres := [], bm25_score := 1 }]
      (fun _ => some [1]) (some [1]) 1 0
      { movie_id := 1, title := "a", year := none, genres := [],
        normalized_bm25 := some 1, normalized_similarity := some 1,
        combined_score := some 1 }
      (of_decide_eq_true (by with_unfolding_all rfl))).2 1 1 rfl rfl).1

end Reranker
